import Mathlib

/-!
Verification development for the Clipboard2Voice repository: a shallow
embedding of the TTS server's model cache and dispatch layer
(`tts_server.py`), the resilient hotkey client (`vpn_compatible_tts.py`),
the HTTP client's health check (`tts_client.py`) and the connection
diagnostic tool (`debug_vpn_connection.py`), together with theorems
settling the specification's claims about them.
-/

namespace Clipboard2Voice

/-! ## Text classification (CJK detection)

`any(u'一' <= c <= u'鿿' for c in text)` appears in
`tts_server.py` (lines 163 and 212) and `vpn_compatible_tts.py`
(line 212).  A Python `str` is iterated as a sequence of code points,
which we model as `String.data`. -/

/-- True when the text contains at least one character in the CJK
Unified Ideographs range U+4E00..U+9FFF. -/
def hasCJK (text : String) : Bool :=
  text.data.any fun c => decide (0x4e00 ≤ c.toNat ∧ c.toNat ≤ 0x9fff)

/-- Whether the first list begins with the second one. -/
def listBegins : List Char → List Char → Bool
  | _, [] => true
  | [], _ :: _ => false
  | a :: as, b :: bs => a == b && listBegins as bs

/-- Whether `needle` occurs contiguously inside the list. -/
def listHasSub (needle : List Char) : List Char → Bool
  | [] => needle.isEmpty
  | b :: bs => listBegins (b :: bs) needle || listHasSub needle bs

/-- `needle in hay` on Python strings (substring containment). -/
def strContains (hay needle : String) : Bool :=
  listHasSub needle.data hay.data

/-- Python truthiness of an optional string (`None` and `""` are falsy). -/
def optStrTruthy : Option String → Bool
  | none => false
  | some s => !s.isEmpty

/-- ASCII lower-casing of one character (the model names involved are
ASCII, where Python's `str.lower()` maps exactly `A`-`Z`). -/
def charLower (c : Char) : Char :=
  if 'A' ≤ c ∧ c ≤ 'Z' then Char.ofNat (c.toNat + 32) else c

/-- `s.lower()` on the code-point sequence. -/
def strLower (s : String) : String :=
  ⟨s.data.map charLower⟩

/-! ## Server dispatcher (`tts_server.py`, `generate_speech`, lines 198-226) -/

/-- The default model name (`'tts_models/en/ljspeech/tacotron2-DDC'`). -/
def defaultModel : String := "tts_models/en/ljspeech/tacotron2-DDC"

/-- The multilingual XTTS v2 model name. -/
def xttsModel : String := "tts_models/multilingual/multi-dataset/xtts_v2"

/-- The model-selection fragment of `generate_speech` (lines 208-215):
`model_name = data.get('model_name', default)` followed by
`if not language and any(CJK): if "xtts" not in model_name.lower():
model_name = xtts`. -/
def selectModel (text : String) (modelName? : Option String)
    (language? : Option String) : String :=
  let model_name := modelName?.getD defaultModel
  if !optStrTruthy language? && hasCJK text
      && !strContains (strLower model_name) "xtts" then
    xttsModel
  else
    model_name

/-- The JSON body of a `POST /tts` request, as read by lines 204-209:
`data.get('text')`, `data.get('model_name', default)`,
`data.get('language')`. -/
structure ReqData where
  text : Option String
  model_name : Option String
  language : Option String
deriving DecidableEq, Repr

/-- The dispatcher's response: `400` with an error body, `200` with an
audio file, or `500` with an error body. -/
inductive TTSResponse
  | badRequest (msg : String)
  | audioFile (path : String)
  | serverError (msg : String)
deriving DecidableEq, Repr

/-- Whether a response is the 400 branch. -/
def TTSResponse.isBadRequest : TTSResponse → Bool
  | .badRequest _ => true
  | _ => false

/-- The `generate_speech` handler (lines 198-226), parameterised by the
synthesis collaborator `synth` (the call
`model_manager.text_to_speech(text, model_name, language)`): `data` is
`none` when the body is absent/unparseable or the JSON object is empty
(both falsy for `if not data`); otherwise the handler returns 400 iff
the `text` key is missing, and otherwise selects the model and runs
synthesis, mapping an exception to 500 and success to the audio file. -/
def generate_speech
    (synth : String → String → Option String → Except String String)
    (data : Option ReqData) : TTSResponse :=
  match data with
  | none => .badRequest "缺少必需的参数: text"
  | some d =>
    match d.text with
    | none => .badRequest "缺少必需的参数: text"
    | some text =>
      let model_name := selectModel text d.model_name d.language
      match synth text model_name d.language with
      | .ok path => .audioFile path
      | .error e => .serverError e

/-- A synthesis oracle that always succeeds, producing a fixed path. -/
def synthOk : String → String → Option String → Except String String :=
  fun _ _ _ => .ok "/tmp/out.wav"

/-- A synthesis oracle that always raises. -/
def synthErr : String → String → Option String → Except String String :=
  fun _ _ _ => .error "boom"

/-! ## Model cache (`tts_server.py`, `TTSModelManager.get_model`,
lines 120-133)

A loaded engine instance is modelled by an opaque identifier (`Nat`),
and the Python `TTS(model_name=...)` constructor by an oracle
`loader : String → Except String Nat` (success yields an instance,
exception yields an error message).  `self.models` is a dict from model
name to instance, modelled as an association list with Python-dict
insertion-order append semantics. -/

/-- The cache `self.models`. -/
abbrev ModelCache := List (String × Nat)

/-- Dict membership / indexing: first binding for the key. -/
def cacheGet (cache : ModelCache) (name : String) : Option Nat :=
  match cache with
  | [] => none
  | (k, v) :: rest => if k = name then some v else cacheGet rest name

/-- `get_model` (lines 120-133): if `model_name not in self.models`,
call `TTS(model_name=model_name)`; on success store the instance, on
exception re-raise without touching the cache; finally return
`self.models[model_name]`.  The result triple is (returned value or
propagated exception, cache afterwards, number of loads performed). -/
def get_model (loader : String → Except String Nat) (cache : ModelCache)
    (name : String) : Except String Nat × ModelCache × Nat :=
  match cacheGet cache name with
  | some m => (.ok m, cache, 0)
  | none =>
    match loader name with
    | .ok m => (.ok m, cache ++ [(name, m)], 1)
    | .error e => (.error e, cache, 1)

/-- A sequence of `get_model` calls (each with its own loader oracle),
threading the cache and accumulating the number of loads performed. -/
def runCalls (calls : List ((String → Except String Nat) × String))
    (cache : ModelCache) : ModelCache × Nat :=
  match calls with
  | [] => (cache, 0)
  | (loader, name) :: rest =>
    let r := get_model loader cache name
    let rec' := runCalls rest r.2.1
    (rec'.1, r.2.2 + rec'.2)

/-- `n` sequential `get_model` calls for the same `name` with the same
loader, from the given cache; returns the list of per-call results, the
final cache and the total number of loads. -/
def seqGetModel (loader : String → Except String Nat) (name : String) :
    Nat → ModelCache → List (Except String Nat) × ModelCache × Nat
  | 0, cache => ([], cache, 0)
  | n + 1, cache =>
    let r := get_model loader cache name
    let rest := seqGetModel loader name n r.2.1
    (r.1 :: rest.1, rest.2.1, r.2.2 + rest.2.2)

/-! ## Synthesis parameter assembly (`tts_server.py`,
`TTSModelManager.text_to_speech`, lines 144-183)

The loaded engine's duck-typed surface is modelled with `Option`
fields: `none` plays the role of a missing attribute (`hasattr`
false), and Python truthiness of the attribute value is tested
explicitly.  `tts_params` is the keyword-argument dict passed to
`tts.tts_to_file(**tts_params)`, modelled as a key/value list. -/

/-- Duck-typed capability surface of a loaded engine. -/
structure Engine where
  is_multi_speaker : Option Bool
  speakers : Option (List String)
  is_multi_lingual : Option Bool
  languages : Option (List String)
deriving DecidableEq, Repr

/-- `hasattr(tts, 'speakers') and tts.speakers` — present and
non-empty. -/
def truthyList : Option (List String) → Bool
  | some (_ :: _) => true
  | _ => false

/-- `hasattr(tts, flag) and tts.flag` for a boolean attribute. -/
def truthyFlag : Option Bool → Bool
  | some b => b
  | none => false

/-- The speaker / speaker_wav selection of lines 146-157:
`speaker = None; speaker_wav = None; is_xtts_v2 = "xtts_v2" in
model_name`; if the engine is multi-speaker, a non-empty speaker list
yields `speaker = tts.speakers[0]`, and otherwise an xtts_v2 model
with an available reference audio yields `speaker_wav =
self.reference_audio`.  (`reference_audio` is `None` or a non-empty
path string, so its Python truthiness is `Option.isSome`.) -/
def chooseSpeaker (e : Engine) (model_name : String)
    (reference_audio : Option String) : Option String × Option String :=
  if truthyFlag e.is_multi_speaker then
    match e.speakers with
    | some (s :: _) => (some s, none)
    | _ =>
      if strContains model_name "xtts_v2" && reference_audio.isSome then
        (none, reference_audio)
      else
        (none, none)
  else
    (none, none)

/-- The language selection of lines 160-167: only when the caller
passed `language=None` and the engine is multi-lingual with a
non-empty language list, infer `zh-cn` for CJK text and `en`
otherwise. -/
def chooseLanguage (e : Engine) (text : String)
    (language : Option String) : Option String :=
  match language with
  | some l => some l
  | none =>
    if truthyFlag e.is_multi_lingual && truthyList e.languages then
      if hasCJK text then some "zh-cn" else some "en"
    else
      none

/-- The keyword-argument dict of lines 174-180: `text` and `file_path`
always, then `speaker`, `language`, `speaker_wav`, each added only when
the corresponding local is not `None`. -/
def tts_params (e : Engine) (model_name text output_path : String)
    (language : Option String) (reference_audio : Option String) :
    List (String × String) :=
  let sp := chooseSpeaker e model_name reference_audio
  let lang := chooseLanguage e text language
  [("text", text), ("file_path", output_path)]
    ++ (match sp.1 with | some s => [("speaker", s)] | none => [])
    ++ (match lang with | some l => [("language", l)] | none => [])
    ++ (match sp.2 with | some w => [("speaker_wav", w)] | none => [])

/-- The keys of a keyword-argument dict. -/
def paramKeys (ps : List (String × String)) : List String := ps.map (·.1)

/-! ## Interleaved executions of `get_model`
(`tts_server.py`, lines 120-133)

`get_model` takes no lock (the class's `_lock` guards only singleton
construction in `__new__`), so concurrent callers interleave freely.
Each caller runs the statements of `get_model` as atomic steps:
membership test (`model_name not in self.models`), engine construction
(`TTS(model_name=...)`), dict insertion
(`self.models[model_name] = model`), and the final re-read
(`return self.models[model_name]`).  Each constructor call returns a
fresh engine object, modelled by stamping the instance with the global
count of constructor calls made so far. -/

/-- Program counter of one `get_model` caller. -/
inductive PC
  | check | load | insert | ret | done
deriving DecidableEq, Repr

/-- One caller: program counter, local `model` variable, returned
value. -/
structure ThreadSt where
  pc : PC
  tmp : Option Nat
  result : Option Nat
deriving DecidableEq, Repr

/-- Shared state: the `self.models` dict, the number of `TTS(...)`
constructor calls performed so far, and the callers. -/
structure SysSt where
  cache : ModelCache
  loads : Nat
  threads : List ThreadSt
deriving DecidableEq, Repr

/-- Python dict assignment `self.models[name] = v` (replace or
append). -/
def cacheSet (cache : ModelCache) (name : String) (v : Nat) : ModelCache :=
  match cache with
  | [] => [(name, v)]
  | (k, w) :: rest =>
    if k = name then (k, v) :: rest else (k, w) :: cacheSet rest name v

/-- One atomic step of caller `tid` (all callers request the same
`name`; the loader always succeeds, matching the claim's "before K is
cached" scenario with a loadable model). -/
def stepThread (name : String) (s : SysSt) (tid : Nat) : SysSt :=
  match s.threads.get? tid with
  | none => s
  | some t =>
    match t.pc with
    | .check =>
      let t' : ThreadSt :=
        if (cacheGet s.cache name).isSome then { t with pc := .ret }
        else { t with pc := .load }
      { s with threads := s.threads.set tid t' }
    | .load =>
      let t' : ThreadSt := { t with pc := .insert, tmp := some s.loads }
      { s with loads := s.loads + 1, threads := s.threads.set tid t' }
    | .insert =>
      match t.tmp with
      | some v =>
        let t' : ThreadSt := { t with pc := .ret }
        { s with cache := cacheSet s.cache name v,
                 threads := s.threads.set tid t' }
      | none => s
    | .ret =>
      let t' : ThreadSt := { t with pc := .done,
                                    result := cacheGet s.cache name }
      { s with threads := s.threads.set tid t' }
    | .done => s

/-- Run a schedule (a list of thread ids, each executing one atomic
step in turn). -/
def runSched (name : String) (sched : List Nat) (s : SysSt) : SysSt :=
  sched.foldl (stepThread name) s

/-- `n` callers about to execute `get_model` on an empty cache. -/
def initSys (n : Nat) : SysSt :=
  ⟨[], 0, List.replicate n ⟨.check, none, none⟩⟩

/-! ## Resilient hotkey client (`vpn_compatible_tts.py`)

`VPNCompatibleTTSHotkey.__init__` runs `_connect_to_server` once
(line 81); `_convert_to_speech` (lines 232-261) then performs up to
`max_retries` request attempts, and after each failed attempt other
than the last re-runs `_connect_to_server` and sleeps 1 second.
`_connect_to_server` that finds no working URL calls `sys.exit(1)`,
which aborts the flow (a `SystemExit` is not caught by the
`except Exception` handlers).  Request outcomes and selector outcomes
are oracles indexed by attempt / selector-run number. -/

/-- Outcome of one request attempt.  The server's 400 response makes
`raise_for_status` raise an `HTTPError`, which `_convert_to_speech`
catches exactly like any transport error. -/
inductive ReqOutcome
  | ok
  | badRequest
  | err (msg : String)
deriving DecidableEq, Repr

/-- Terminal state of one `_convert_to_speech` flow. -/
inductive RunResult
  | success
  | failed (last : ReqOutcome)
  | exited
  | noRequest
deriving DecidableEq, Repr

/-- Observable trace of one flow: request attempts made, runs of the
connection selector, one-second sleeps, and the terminal state. -/
structure ClientRun where
  attempts : Nat
  selections : Nat
  sleeps : Nat
  result : RunResult
deriving DecidableEq, Repr

/-- The retry loop of `_convert_to_speech` (lines 238-256).
`remaining` is `max_retries - attempt`; `k` is the attempt index,
`selCount` the number of selector runs so far and `sleeps` the number
of `time.sleep(1)` calls so far. -/
def clientGo (req : Nat → ReqOutcome) (sel : Nat → Bool) :
    Nat → Nat → Nat → Nat → ClientRun
  | 0, k, selCount, sleeps => ⟨k, selCount, sleeps, .noRequest⟩
  | remaining + 1, k, selCount, sleeps =>
    let o := req k
    if o = .ok then
      ⟨k + 1, selCount, sleeps, .success⟩
    else if remaining = 0 then
      ⟨k + 1, selCount, sleeps, .failed o⟩
    else if sel selCount then
      clientGo req sel remaining (k + 1) (selCount + 1) (sleeps + 1)
    else
      ⟨k + 1, selCount + 1, sleeps, .exited⟩

/-- One whole flow: the constructor's `_connect_to_server` (selector
run 0) followed by the retry loop with `max_retries` attempts. -/
def runClient (max_retries : Nat) (req : Nat → ReqOutcome)
    (sel : Nat → Bool) : ClientRun :=
  if sel 0 then clientGo req sel max_retries 0 1 0
  else ⟨0, 1, 0, .exited⟩

/-- The URL loop of `_connect_to_server` (lines 120-141): try each URL
in order, keep the first one whose health check passes; `none` models
the `sys.exit(1)` taken when every URL fails. -/
def connect_to_server (probe : String → Bool) : List String → Option String
  | [] => none
  | u :: rest => if probe u then some u else connect_to_server probe rest

/-! ## Health checks (`tts_client.py` lines 31-38,
`debug_vpn_connection.py` lines 101-153) -/

/-- A parsed JSON body: an object with string values, or any other
JSON value. -/
inductive PyJson
  | dict (kvs : List (String × String))
  | other (s : String)
deriving DecidableEq, Repr

/-- An HTTP response: status code, and the result of `.json()`
(`none` when parsing raises). -/
structure HttpResp where
  status_code : Nat
  jsonBody : Option PyJson
deriving DecidableEq, Repr

/-- `dict.get(k)` on a string-valued JSON object. -/
def dictGetS (kvs : List (String × String)) (k : String) : Option String :=
  match kvs with
  | [] => none
  | (k', v) :: rest => if k' = k then some v else dictGetS rest k

/-- `TTSClient.check_server_health` (lines 31-38): `GET /health` with
a timeout, then `raise_for_status()`; returns `True` on any
non-4xx/5xx status and otherwise raises `ConnectionError` (`false`
here).  `resp = none` models the request itself raising.  The response
body is never inspected. -/
def check_server_health (resp : Option HttpResp) : Bool :=
  match resp with
  | none => false
  | some r => !decide (400 ≤ r.status_code ∧ r.status_code < 600)

/-- The three probe verdicts filled in by `test_http_connection`. -/
structure ProbeResult where
  socket_ok : Bool
  http_ok : Bool
  health_ok : Bool
deriving DecidableEq, Repr

/-- Whether a string ends with the given suffix. -/
def strEndsWith (s suf : String) : Bool :=
  listBegins s.data.reverse suf.data.reverse

/-- `test_http_connection` (lines 101-153), restricted to its three
verdict fields: stage one is the raw socket connect (`socketOk`
oracle; failure stops the probe), stage two the HTTP `GET`
(`httpResp = none` when it raises), `http_ok` is a 2xx status, and
`health_ok` additionally requires the URL to end in `/health` and the
parsed body to be a JSON object whose `"status"` key equals
`"running"`. -/
def test_http_connection (url : String) (socketOk : Bool)
    (httpResp : Option HttpResp) : ProbeResult :=
  if !socketOk then
    ⟨false, false, false⟩
  else
    match httpResp with
    | none => ⟨true, false, false⟩
    | some r =>
      if 200 ≤ r.status_code ∧ r.status_code < 300 then
        match r.jsonBody with
        | some (.dict kvs) =>
          if strEndsWith url "/health" then
            ⟨true, true, dictGetS kvs "status" == some "running"⟩
          else
            ⟨true, true, false⟩
        | some (.other _) => ⟨true, true, false⟩
        | none => ⟨true, true, false⟩
      else
        ⟨true, false, false⟩

/-! ## Candidate URL generation (`vpn_compatible_tts.py` lines 94-118,
`debug_vpn_connection.py` lines 46-77) -/

/-- `f"http://{addr}:{port}"`. -/
def mkUrl (addr : String) (port : Nat) : String :=
  "http://" ++ addr ++ ":" ++ toString port

/-- Outcome of the hostname/IP resolution attempts inside
`get_connection_urls`: `fail0` when `gethostname`/`gethostbyname`
raises (nothing of steps 5-6 appended), `fail1` when
`gethostbyname_ex` raises after step 5 already ran, `ok` when all
three calls succeed. -/
inductive Resolution
  | fail0
  | fail1 (hostname ip : String)
  | ok (hostname ip : String) (allIps : List String)
deriving DecidableEq, Repr

/-- The four unconditioned URLs (lines 51-56 / 100-105). -/
def baseUrls (port : Nat) : List String :=
  [mkUrl "localhost" port, mkUrl "127.0.0.1" port,
   mkUrl "0.0.0.0" port, mkUrl "[::1]" port]

/-- Step 5 (lines 60-64 / 109-113): `if ip != "127.0.0.1"`, append the
resolved IP's URL and the bare hostname's URL. -/
def hostStepUrls (port : Nat) (hostname ip : String) : List String :=
  if ip ≠ "127.0.0.1" then [mkUrl ip port, mkUrl hostname port] else []

/-- Step 6 (lines 66-70): for each address from `gethostbyname_ex`,
append its URL unless it is `127.0.0.1` or the URL is already in the
list. -/
def step6 (port : Nat) (ips : List String) (urls : List String) :
    List String :=
  ips.foldl
    (fun acc x =>
      if x ≠ "127.0.0.1" ∧ mkUrl x port ∉ acc then acc ++ [mkUrl x port]
      else acc)
    urls

/-- `get_connection_urls` (`debug_vpn_connection.py`, lines 46-77):
base URLs, then whatever of steps 5-6 survives the `try` block, then
the Docker bridge URL appended unconditionally. -/
def get_connection_urls (port : Nat) (r : Resolution) : List String :=
  let urls := baseUrls port
  let urls :=
    match r with
    | .fail0 => urls
    | .fail1 hn ip => urls ++ hostStepUrls port hn ip
    | .ok hn ip ips => step6 port ips (urls ++ hostStepUrls port hn ip)
  urls ++ [mkUrl "172.17.0.1" port]

/-- Resolution outcome for `_get_potential_server_urls`, which has no
`gethostbyname_ex` step. -/
inductive VpnRes
  | fail
  | ok (hostname ip : String)
deriving DecidableEq, Repr

/-- `_get_potential_server_urls` (`vpn_compatible_tts.py`, lines
94-118): the base URLs plus step 5; there is no step 6 and no bridge
address in this variant. -/
def get_potential_server_urls (port : Nat) (r : VpnRes) : List String :=
  baseUrls port ++
    match r with
    | .fail => []
    | .ok hn ip => hostStepUrls port hn ip

end Clipboard2Voice

namespace Clipboard2Voice

/-! ## Claim C2: rejection of empty / whitespace-only text -/

/-- **C2** counterexample: a request whose `text` field is the empty
string (or whitespace only) is *not* rejected with 400.  The `'text'
not in data` check passes, so the handler proceeds to model selection
and synthesis: with a succeeding synthesis collaborator it returns the
audio file, and with a raising one it returns 500 — showing synthesis
was attempted. -/
theorem c2_empty_text_not_rejected :
    (generate_speech synthOk (some ⟨some "", none, none⟩)).isBadRequest
        = false ∧
    generate_speech synthOk (some ⟨some "   ", none, none⟩)
        = .audioFile "/tmp/out.wav" ∧
    generate_speech synthErr (some ⟨some "", none, none⟩)
        = .serverError "boom" :=
  ⟨rfl, rfl, rfl⟩

/-- **C2** (amended): the handler returns 400 exactly when the JSON
body is missing/empty or the `text` key is absent; whenever it returns
400 it does so before synthesis (the response does not depend on the
synthesis collaborator); and any request carrying a `text` key —
including the empty or whitespace-only string — proceeds past
validation. -/
theorem c2_badRequest_iff_text_missing
    (s₁ s₂ : String → String → Option String → Except String String)
    (data : Option ReqData) :
    ((generate_speech s₁ data).isBadRequest = true ↔
      data = none ∨ ∃ d, data = some d ∧ d.text = none) ∧
    ((generate_speech s₁ data).isBadRequest = true →
      generate_speech s₁ data = generate_speech s₂ data) := by
  cases data with
  | none => simp [generate_speech, TTSResponse.isBadRequest]
  | some d =>
    cases h : d.text with
    | none => simp [generate_speech, TTSResponse.isBadRequest, h]
    | some t =>
      refine ⟨?_, ?_⟩
      · simp only [generate_speech, h]
        cases hs : s₁ t (selectModel t d.model_name d.language) d.language with
        | ok p => simp [TTSResponse.isBadRequest, h]
        | error e => simp [TTSResponse.isBadRequest, h]
      · intro hbad
        exfalso
        simp only [generate_speech, h] at hbad
        cases hs : s₁ t (selectModel t d.model_name d.language) d.language with
        | ok p => simp [hs, TTSResponse.isBadRequest] at hbad
        | error e => simp [hs, TTSResponse.isBadRequest] at hbad

/-- **C2** witness: the amended theorem applied to the missing-body
request. -/
theorem c2_badRequest_iff_text_missing_witness :
    (generate_speech synthOk none).isBadRequest = true :=
  (c2_badRequest_iff_text_missing synthOk synthErr none).1.mpr (Or.inl rfl)

/-! ## Claim C5: model inference from the text -/

/-- **C5** counterexample: with `modelKey` absent, CJK text and a
supplied `languageCode` the inference is suppressed (the default model
is selected, not the multilingual one), so the inference *does* depend
on whether `languageCode` was supplied; and a *present* `modelKey`
equal to the default identifier is overridden to the multilingual one
for CJK text, so a present key is not always used as given. -/
theorem c5_inference_depends_on_language :
    hasCJK "中" = true ∧
    selectModel "中" none none = xttsModel ∧
    selectModel "中" none (some "zh-cn") = defaultModel ∧
    selectModel "中" (some defaultModel) none = xttsModel ∧
    defaultModel ≠ xttsModel := by
  refine ⟨by decide, by decide, by decide, by decide, by decide⟩

/-- **C5** (amended): the CJK-based inference runs whenever the
`language` field is falsy (absent or empty) and the effective model
name (the supplied one, or the default when absent) does not contain
`"xtts"` case-insensitively: it then selects the multilingual
identifier, overriding even an explicitly supplied model name.  When
`language` is truthy the effective model name is used as given.  In
particular, with both `modelKey` and `languageCode` absent, CJK text
yields the multilingual identifier and other text the default one. -/
theorem c5_selection_characterised (text : String) (m l : Option String) :
    (selectModel text none none
        = if hasCJK text then xttsModel else defaultModel) ∧
    (optStrTruthy l = true → selectModel text m l = m.getD defaultModel) ∧
    (hasCJK text = true →
      strContains (strLower (m.getD defaultModel)) "xtts" = false →
      selectModel text m none = xttsModel) := by
  refine ⟨?_, ?_, ?_⟩
  · have hx : strContains (strLower (Option.getD none defaultModel))
        "xtts" = false := by decide
    simp only [selectModel, optStrTruthy, hx]
    cases h : hasCJK text <;> simp [h]
  · intro hl
    simp [selectModel, hl]
  · intro hc hx
    simp [selectModel, optStrTruthy, hc, hx]

/-- **C5** witness: the amended theorem applied at concrete inputs
(supplied language suppressing the inference). -/
theorem c5_selection_characterised_witness :
    selectModel "中文" (some "my/model") (some "en") = "my/model" :=
  (c5_selection_characterised "中文" (some "my/model") (some "en")).2.1
    (by decide)

end Clipboard2Voice

namespace Clipboard2Voice

/-! ## Claim C10: synthesis parameter invariants -/

/-- Case analysis of the speaker/speaker_wav selection: the if/elif
chain of lines 151-157 produces no speaker data, a named speaker from
the head of a non-empty speaker list of a multi-speaker engine, or the
reference audio for a multi-speaker engine with an absent/empty
speaker list, an `xtts_v2` model name and an available reference. -/
theorem chooseSpeaker_cases (e : Engine) (model : String)
    (ref : Option String) :
    chooseSpeaker e model ref = (none, none) ∨
    (∃ s rest, truthyFlag e.is_multi_speaker = true ∧
      e.speakers = some (s :: rest) ∧
      chooseSpeaker e model ref = (some s, none)) ∨
    (∃ w, truthyFlag e.is_multi_speaker = true ∧
      truthyList e.speakers = false ∧
      strContains model "xtts_v2" = true ∧ ref = some w ∧
      chooseSpeaker e model ref = (none, some w)) := by
  cases hms : truthyFlag e.is_multi_speaker with
  | false => left; simp [chooseSpeaker, hms]
  | true =>
    cases hsp : e.speakers with
    | none =>
      cases hx : strContains model "xtts_v2" with
      | false => left; simp [chooseSpeaker, hms, hsp, hx]
      | true =>
        cases ref with
        | none => left; simp [chooseSpeaker, hms, hsp, hx]
        | some w =>
          right; right
          refine ⟨w, ?_, ?_, ?_, ?_, ?_⟩ <;>
            simp [chooseSpeaker, truthyList, hms, hsp, hx]
    | some l =>
      cases l with
      | nil =>
        cases hx : strContains model "xtts_v2" with
        | false => left; simp [chooseSpeaker, hms, hsp, hx]
        | true =>
          cases ref with
          | none => left; simp [chooseSpeaker, hms, hsp, hx]
          | some w =>
            right; right
            refine ⟨w, ?_, ?_, ?_, ?_, ?_⟩ <;>
              simp [chooseSpeaker, truthyList, hms, hsp, hx]
      | cons s rest =>
        right; left
        refine ⟨s, rest, ?_, ?_, ?_⟩ <;> simp [chooseSpeaker, hms, hsp]

/-- **C10**: the keyword arguments assembled by `text_to_speech`
always include `text` and `file_path`; never both `speaker` and
`speaker_wav`; a named `speaker` only for a multi-speaker engine
exposing a non-empty speaker list, and then its first element; a
`speaker_wav` only when the speaker list is absent or empty, the model
name contains `"xtts_v2"` and the reference audio is available (and
then it is that reference); and `language` only when one was actually
determined. -/
theorem c10_tts_params_invariants (e : Engine) (model text path : String)
    (lang ref : Option String) :
    ("text" ∈ paramKeys (tts_params e model text path lang ref) ∧
      "file_path" ∈ paramKeys (tts_params e model text path lang ref)) ∧
    ¬("speaker" ∈ paramKeys (tts_params e model text path lang ref) ∧
      "speaker_wav" ∈ paramKeys (tts_params e model text path lang ref)) ∧
    (∀ s, ("speaker", s) ∈ tts_params e model text path lang ref →
      truthyFlag e.is_multi_speaker = true ∧
      ∃ rest, e.speakers = some (s :: rest)) ∧
    (∀ w, ("speaker_wav", w) ∈ tts_params e model text path lang ref →
      truthyList e.speakers = false ∧
      strContains model "xtts_v2" = true ∧ ref = some w) ∧
    (∀ l, ("language", l) ∈ tts_params e model text path lang ref →
      chooseLanguage e text lang = some l) := by
  rcases chooseSpeaker_cases e model ref with hsp |
      ⟨s, rest, hms, hspk, hsp⟩ | ⟨w, hms, hnl, hx, href, hsp⟩ <;>
    · unfold tts_params paramKeys
      rw [hsp]
      cases hlg : chooseLanguage e text lang <;>
        simp_all [List.mem_append]

/-- **C10** witness: applied to a multi-speaker engine with a
non-empty speaker list, the invariants yield the speaker-list facts of
the engine from the presence of the `speaker` parameter. -/
theorem c10_tts_params_invariants_witness :
    truthyFlag (Engine.mk (some true) (some ["p225", "p226"]) none
        none).is_multi_speaker = true ∧
    ∃ rest, (Engine.mk (some true) (some ["p225", "p226"]) none
        none).speakers = some ("p225" :: rest) :=
  (c10_tts_params_invariants
      (Engine.mk (some true) (some ["p225", "p226"]) none none)
      "tts_models/en/vctk/vits" "hello" "/tmp/o.wav" none
      (some "ref.wav")).2.2.1 "p225" (by decide)

end Clipboard2Voice

namespace Clipboard2Voice

/-! ## Claims C9 and C1: cache behaviour of `get_model` -/

/-- A key bound in the cache keeps its binding under appends. -/
theorem cacheGet_append_of_some {c : ModelCache} {n : String} {m : Nat}
    (h : cacheGet c n = some m) (l : ModelCache) :
    cacheGet (c ++ l) n = some m := by
  induction c with
  | nil => simp [cacheGet] at h
  | cons kv rest ih =>
    obtain ⟨k, v⟩ := kv
    by_cases hk : k = n
    · simp [cacheGet, hk] at h ⊢
      exact h
    · simp [cacheGet, hk] at h ⊢
      exact ih h

/-- Looking up an unbound key continues into the appended part. -/
theorem cacheGet_append_of_none {c : ModelCache} {n : String}
    (h : cacheGet c n = none) (l : ModelCache) :
    cacheGet (c ++ l) n = cacheGet l n := by
  induction c with
  | nil => simp
  | cons kv rest ih =>
    obtain ⟨k, v⟩ := kv
    by_cases hk : k = n
    · simp [cacheGet, hk] at h
    · simp [cacheGet, hk] at h ⊢
      exact ih h

/-- `get_model` never removes or replaces an existing binding. -/
theorem cacheGet_get_model_preserved {c : ModelCache} {n : String}
    {m : Nat} (h : cacheGet c n = some m)
    (loader : String → Except String Nat) (n' : String) :
    cacheGet (get_model loader c n').2.1 n = some m := by
  unfold get_model
  cases hg : cacheGet c n' with
  | some v => simpa using h
  | none =>
    cases hl : loader n' with
    | ok v => simpa using cacheGet_append_of_some h [(n', v)]
    | error e => simpa using h

/-- Any sequence of further `get_model` calls preserves an existing
binding. -/
theorem runCalls_preserves {n : String} {m : Nat} :
    ∀ (calls : List ((String → Except String Nat) × String))
      (c : ModelCache), cacheGet c n = some m →
      cacheGet (runCalls calls c).1 n = some m := by
  intro calls
  induction calls with
  | nil => intro c h; simpa [runCalls] using h
  | cons p rest ih =>
    intro c h
    obtain ⟨loader, name⟩ := p
    simpa [runCalls] using ih _ (cacheGet_get_model_preserved h loader name)

/-- **C9**: `get_model` is atomic with respect to failure and caches
successes permanently.  On a load failure the exception propagates,
the cache is untouched (no entry, no negative result) and the call
still counted one load attempt — so a later call retries.  On a load
success the entry is inserted under the key.  For a cached key the
call returns the cached entry with zero loads, and no sequence of
later `get_model` calls ever evicts or replaces the binding. -/
theorem c9_get_model_atomic (loader : String → Except String Nat)
    (cache : ModelCache) (name : String) :
    (∀ e, cacheGet cache name = none → loader name = .error e →
      get_model loader cache name = (.error e, cache, 1)) ∧
    (∀ m, cacheGet cache name = none → loader name = .ok m →
      get_model loader cache name = (.ok m, cache ++ [(name, m)], 1) ∧
      cacheGet (cache ++ [(name, m)]) name = some m) ∧
    (∀ m, cacheGet cache name = some m →
      get_model loader cache name = (.ok m, cache, 0)) ∧
    (∀ m calls, cacheGet cache name = some m →
      cacheGet (runCalls calls cache).1 name = some m) := by
  refine ⟨?_, ?_, ?_, ?_⟩
  · intro e h hl
    simp [get_model, h, hl]
  · intro m h hl
    refine ⟨by simp [get_model, h, hl], ?_⟩
    rw [cacheGet_append_of_none h]
    simp [cacheGet]
  · intro m h
    simp [get_model, h]
  · intro m calls h
    exact runCalls_preserves calls cache h

/-- **C9** witness: the three `get_model` cases at concrete inputs —
failing load leaves the empty cache empty, succeeding load inserts,
cached key returns the original entry without loading. -/
theorem c9_get_model_atomic_witness :
    get_model (fun _ => Except.error "boom") [] "m1"
        = (.error "boom", [], 1) ∧
    get_model (fun _ => Except.ok 7) [] "m1" = (.ok 7, [("m1", 7)], 1) ∧
    get_model (fun _ => Except.ok 9) [("m1", 7)] "m1"
        = (.ok 7, [("m1", 7)], 0) :=
  ⟨(c9_get_model_atomic (fun _ => Except.error "boom") [] "m1").1
      "boom" rfl rfl,
   ((c9_get_model_atomic (fun _ => Except.ok 7) [] "m1").2.1
      7 rfl rfl).1,
   (c9_get_model_atomic (fun _ => Except.ok 9) [("m1", 7)] "m1").2.2.1
      7 (by decide)⟩

/-- Once the key is cached, every further sequential call is a pure
cache hit. -/
theorem seqGetModel_cached {loader : String → Except String Nat}
    {name : String} {m : Nat} :
    ∀ (n : Nat) (cache : ModelCache), cacheGet cache name = some m →
      seqGetModel loader name n cache
        = (List.replicate n (Except.ok m), cache, 0) := by
  intro n
  induction n with
  | zero => intro c h; simp [seqGetModel]
  | succ k ih =>
    intro c h
    simp [seqGetModel, get_model, h, ih c h, List.replicate_succ]

/-- **C1** counterexample: two callers of `get_model("k")` interleaved
check-check-load-insert (schedule `[0,1,0,0,0,1,1,1]`) perform **two**
`TTS(...)` constructor calls, and the two callers return different
engine instances (instance 0 and instance 1) — `get_model` holds no
lock, so neither "exactly one underlying load" nor "all callers
observe the identical outcome" holds under concurrency. -/
theorem c1_two_loads_under_interleaving :
    (runSched "k" [0, 1, 0, 0, 0, 1, 1, 1] (initSys 2)).loads = 2 ∧
    ((runSched "k" [0, 1, 0, 0, 0, 1, 1, 1] (initSys 2)).threads.map
        (·.result)) = [some 0, some 1] := by
  decide

/-- **C1** (amended): `get_model` performs exactly one load per key
only for non-overlapping calls: `n + 1` sequential `get_model` calls
for an uncached key whose load succeeds perform exactly one load, all
return the same entry, and the cache ends with exactly that binding.
(Interleaved callers may instead each perform their own load and
observe different instances, as the counterexample shows.) -/
theorem c1_sequential_loads_once (loader : String → Except String Nat)
    (name : String) (m : Nat) (n : Nat) (h : loader name = .ok m) :
    seqGetModel loader name (n + 1) []
      = (List.replicate (n + 1) (Except.ok m), [(name, m)], 1) := by
  have hcached : cacheGet [(name, m)] name = some m := by simp [cacheGet]
  simp [seqGetModel, get_model, cacheGet, h, seqGetModel_cached n _ hcached,
    List.replicate_succ]

/-- **C1** witness: three sequential calls with a loader that yields
instance 5 perform one load and all observe instance 5. -/
theorem c1_sequential_loads_once_witness :
    seqGetModel (fun _ => Except.ok 5) "k" 3 []
      = (List.replicate 3 (Except.ok 5), [("k", 5)], 1) :=
  c1_sequential_loads_once (fun _ => Except.ok 5) "k" 5 2 rfl

end Clipboard2Voice

namespace Clipboard2Voice

/-! ## Claims C3 and C4: the retry loop of `_convert_to_speech` -/

/-- When every attempt fails with a server-side 400 (`BadRequest`) and
every reconnection succeeds, the loop runs through its whole retry
budget: `rem + 1` remaining attempts are all consumed. -/
theorem clientGo_all_badRequest (req : Nat → ReqOutcome)
    (sel : Nat → Bool) (hreq : ∀ k, req k = .badRequest)
    (hsel : ∀ i, sel i = true) :
    ∀ rem k sc sl, clientGo req sel (rem + 1) k sc sl
      = ⟨k + rem + 1, sc + rem, sl + rem, .failed .badRequest⟩ := by
  intro rem
  induction rem with
  | zero =>
    intro k sc sl
    simp [clientGo, hreq]
  | succ r ih =>
    intro k sc sl
    rw [clientGo]
    simp only [hreq, hsel, reduceCtorEq, if_false, if_true,
      Nat.succ_ne_zero, ite_false, ite_true]
    rw [ih (k + 1) (sc + 1) (sl + 1)]
    simp only [ClientRun.mk.injEq]
    refine ⟨by omega, by omega, by omega, trivial⟩

/-- **C3** counterexample: with `max_retries = 3` and a server that
answers 400 (`BadRequest`) to every attempt, the client performs **3**
request attempts — not exactly one — reconnecting and sleeping between
them: the `except Exception` handler retries an `HTTPError` from a 400
response exactly like a transport failure. -/
theorem c3_badRequest_is_retried :
    runClient 3 (fun _ => ReqOutcome.badRequest) (fun _ => true)
      = ⟨3, 3, 2, .failed .badRequest⟩ ∧ (3 : Nat) ≠ 1 :=
  ⟨rfl, by decide⟩

/-- **C3** (amended): the retry loop treats every failure alike,
`BadRequest` included: with `max_retries = m + 1`, all attempts
failing with 400 and all reconnections succeeding, the client makes
`m + 1` attempts, runs the selector `m + 1` times (the constructor's
run plus one per non-final failure), sleeps `m` times, and finally
re-raises the last `BadRequest`.  Exactly one attempt occurs only when
the first attempt succeeds or the retry budget is 1. -/
theorem c3_retry_uniform (m : Nat) (req : Nat → ReqOutcome)
    (sel : Nat → Bool) (hreq : ∀ k, req k = .badRequest)
    (hsel : ∀ i, sel i = true) :
    runClient (m + 1) req sel = ⟨m + 1, m + 1, m, .failed .badRequest⟩ := by
  rw [runClient, if_pos (by simp [hsel])]
  rw [clientGo_all_badRequest req sel hreq hsel m 0 1 0]
  simp only [ClientRun.mk.injEq]
  refine ⟨by omega, by omega, by omega, trivial⟩

/-- **C3** witness: the amended theorem at `max_retries = 2`. -/
theorem c3_retry_uniform_witness :
    runClient 2 (fun _ => ReqOutcome.badRequest) (fun _ => true)
      = ⟨2, 2, 1, .failed .badRequest⟩ :=
  c3_retry_uniform 1 (fun _ => ReqOutcome.badRequest) (fun _ => true)
    (fun _ => rfl) (fun _ => rfl)

/-- **C4** counterexample: a failed connection selection does *not*
count as one attempt — it terminates the flow (`_connect_to_server`
calls `sys.exit(1)`, whose `SystemExit` escapes the
`except Exception` handlers): with the selector failing, the client
performs **0** request attempts and aborts instead of counting the
failure against the 3-attempt budget. -/
theorem c4_failed_selection_aborts :
    (runClient 3 (fun _ => ReqOutcome.err "connection refused")
        (fun _ => false)).attempts = 0 ∧
    (runClient 3 (fun _ => ReqOutcome.err "connection refused")
        (fun _ => false)).result = .exited :=
  ⟨rfl, rfl⟩

/-- **C4** (amended): with the default `max_retries = 3` and a server
failing the first two request attempts and succeeding on the third,
the flow succeeds after exactly 3 request attempts, 3 runs of the
connection selector (the constructor's run plus the two
reconnections), and a 1-second pause before each of the second and
third attempts; but a failed connection selection aborts the flow via
`sys.exit(1)` with no request attempt, rather than counting as one
attempt. -/
theorem c4_three_attempts_succeed :
    runClient 3 (fun k => if k = 2 then ReqOutcome.ok
        else ReqOutcome.err "connection refused") (fun _ => true)
      = ⟨3, 3, 2, .success⟩ ∧
    (∀ maxR req, runClient maxR req (fun _ => false) = ⟨0, 1, 0, .exited⟩) := by
  refine ⟨rfl, ?_⟩
  intro maxR req
  simp [runClient]

/-- **C4** witness: the aborting branch of the amended theorem at a
concrete retry budget and request oracle. -/
theorem c4_three_attempts_succeed_witness :
    runClient 5 (fun _ => ReqOutcome.ok) (fun _ => false)
      = ⟨0, 1, 0, .exited⟩ :=
  c4_three_attempts_succeed.2 5 (fun _ => ReqOutcome.ok)

/-! ## Claim C8: the connection selector takes the first passing URL -/

/-- The URL loop equals `List.find?` on the probe. -/
theorem connect_to_server_eq_find (probe : String → Bool) :
    ∀ urls : List String,
      connect_to_server probe urls = urls.find? probe := by
  intro urls
  induction urls with
  | nil => rfl
  | cons u rest ih =>
    rw [connect_to_server, List.find?]
    cases hp : probe u <;> simp [hp, ih]

/-- **C8**: for every probe-outcome assignment over the candidate
list, `_connect_to_server` selects exactly the first candidate (in
list order) whose health check passes — even when later candidates
would also pass — and exits (`none`) exactly when every candidate
fails.  (The selector is a pure function of the candidate list and the
probe outcomes, so its result is deterministic.) -/
theorem c8_selector_takes_first (probe : String → Bool)
    (urls : List String) :
    (∀ u, connect_to_server probe urls = some u ↔
      probe u = true ∧ ∃ l r, urls = l ++ u :: r ∧
        ∀ v ∈ l, probe v = false) ∧
    (connect_to_server probe urls = none ↔
      ∀ v ∈ urls, probe v = false) := by
  refine ⟨?_, ?_⟩
  · intro u
    rw [connect_to_server_eq_find probe urls, List.find?_eq_some]
    simp
  · rw [connect_to_server_eq_find probe urls, List.find?_eq_none]
    simp

/-- **C8** witness: on a list whose second and third URLs both pass,
the selector returns the second. -/
theorem c8_selector_takes_first_witness :
    connect_to_server (fun u => u ≠ "http://localhost:8090")
        ["http://localhost:8090", "http://127.0.0.1:8090",
         "http://0.0.0.0:8090"]
      = some "http://127.0.0.1:8090" :=
  ((c8_selector_takes_first (fun u => u ≠ "http://localhost:8090")
      ["http://localhost:8090", "http://127.0.0.1:8090",
       "http://0.0.0.0:8090"]).1 "http://127.0.0.1:8090").mpr
    ⟨by decide, ["http://localhost:8090"], ["http://0.0.0.0:8090"],
      by decide, by decide⟩

end Clipboard2Voice

namespace Clipboard2Voice

/-! ## Claim C6: the liveness marker `"status": "running"` -/

/-- **C6** counterexample: a `/health` response with status 200 whose
body lacks the `"status": "running"` marker *passes*
`TTSClient.check_server_health` — the probe used during connection
selection never inspects the body — while the diagnostic tool's
`test_http_connection` does classify the same response as failing its
health stage. -/
theorem c6_marker_not_required_by_selector_probe :
    check_server_health
        (some ⟨200, some (.dict [("status", "loading")])⟩) = true ∧
    (test_http_connection "http://localhost:8090/health" true
        (some ⟨200, some (.dict [("status", "loading")])⟩)).health_ok
      = false := by
  refine ⟨rfl, by decide⟩

/-- **C6** (amended): `check_server_health` — the probe driving
`_connect_to_server` — passes iff the HTTP request succeeded with a
non-4xx/5xx status, independently of the response body; only the
diagnostic tool's `test_http_connection` requires, for `health_ok`,
a transport success, a 2xx status, a URL ending in `/health` and a
JSON-object body whose `"status"` key equals exactly `"running"`. -/
theorem c6_health_check_characterised :
    (∀ code b₁ b₂, check_server_health (some ⟨code, b₁⟩)
        = check_server_health (some ⟨code, b₂⟩)) ∧
    (∀ code body, check_server_health (some ⟨code, body⟩) = true ↔
      code < 400 ∨ 600 ≤ code) ∧
    check_server_health none = false ∧
    (∀ url sOk resp, (test_http_connection url sOk resp).health_ok = true →
      sOk = true ∧ strEndsWith url "/health" = true ∧
      ∃ code kvs, resp = some ⟨code, some (.dict kvs)⟩ ∧
        200 ≤ code ∧ code < 300 ∧
        dictGetS kvs "status" = some "running") := by
  refine ⟨?_, ?_, rfl, ?_⟩
  · intro code b₁ b₂
    simp [check_server_health]
  · intro code body
    simp only [check_server_health, Bool.not_eq_true']
    rw [decide_eq_false_iff_not]
    omega
  · intro url sOk resp h
    cases sOk with
    | false => simp [test_http_connection] at h
    | true =>
      cases resp with
      | none => simp [test_http_connection] at h
      | some r =>
        obtain ⟨code, body⟩ := r
        simp only [test_http_connection, Bool.not_true, Bool.false_eq_true,
          if_false] at h
        refine ⟨rfl, ?_⟩
        by_cases hc : 200 ≤ code ∧ code < 300
        · rw [if_pos hc] at h
          cases body with
          | none => simp at h
          | some j =>
            cases j with
            | dict kvs =>
              by_cases hu : strEndsWith url "/health" = true
              · simp only [hu, if_true] at h
                refine ⟨hu, code, kvs, rfl, hc.1, hc.2, ?_⟩
                exact eq_of_beq h
              · simp [hu] at h
            | other s => simp at h
        · rw [if_neg hc] at h
          simp at h

/-- **C6** witness: the diagnostic probe's characterisation applied to
a passing `/health` response carrying the exact marker. -/
theorem c6_health_check_characterised_witness :
    (true = true ∧ strEndsWith "http://localhost:8090/health" "/health" = true ∧
      ∃ code kvs,
        (some ⟨200, some (.dict [("status", "running")])⟩ :
            Option HttpResp) = some ⟨code, some (.dict kvs)⟩ ∧
        200 ≤ code ∧ code < 300 ∧
        dictGetS kvs "status" = some "running") :=
  c6_health_check_characterised.2.2.2 "http://localhost:8090/health" true
    (some ⟨200, some (.dict [("status", "running")])⟩) (by decide)

end Clipboard2Voice

namespace Clipboard2Voice

/-! ## Claim C7: the candidate URL lists -/

/-- Strings with equal code-point data are equal. -/
theorem string_data_inj {a b : String} (h : a.data = b.data) : a = b := by
  cases a
  cases b
  exact congrArg String.mk h

/-- For a fixed port, distinct addresses give distinct URLs. -/
theorem mkUrl_inj {p : Nat} : Function.Injective fun a => mkUrl a p := by
  intro a b h
  have hd := congrArg String.data h
  simp only [mkUrl, String.data_append, List.append_assoc] at hd
  have h1 := List.append_cancel_left hd
  have h2 := List.append_cancel_right h1
  exact string_data_inj h2

/-- Unfolding of the step-6 fold over one address. -/
theorem step6_cons (port : Nat) (x : String) (rest urls : List String) :
    step6 port (x :: rest) urls
      = step6 port rest
          (if x ≠ "127.0.0.1" ∧ mkUrl x port ∉ urls
           then urls ++ [mkUrl x port] else urls) := rfl

/-- Step 6 only appends to the list it is given. -/
theorem step6_extends (port : Nat) :
    ∀ (ips urls : List String),
      ∃ extra, step6 port ips urls = urls ++ extra := by
  intro ips
  induction ips with
  | nil => intro urls; exact ⟨[], by simp [step6]⟩
  | cons x rest ih =>
    intro urls
    rw [step6_cons]
    by_cases hc : x ≠ "127.0.0.1" ∧ mkUrl x port ∉ urls
    · rw [if_pos hc]
      obtain ⟨extra, he⟩ := ih (urls ++ [mkUrl x port])
      exact ⟨[mkUrl x port] ++ extra, by rw [he, List.append_assoc]⟩
    · rw [if_neg hc]
      exact ih urls
/-- The membership check of step 6 preserves `Nodup`. -/
theorem step6_nodup (port : Nat) :
    ∀ (ips urls : List String), urls.Nodup →
      (step6 port ips urls).Nodup := by
  intro ips
  induction ips with
  | nil => intro urls h; exact h
  | cons x rest ih =>
    intro urls h
    rw [step6_cons]
    by_cases hc : x ≠ "127.0.0.1" ∧ mkUrl x port ∉ urls
    · rw [if_pos hc]
      refine ih _ ?_
      simp [List.nodup_append, h, hc.2]
    · rw [if_neg hc]
      exact ih urls h

/-- Step 6 introduces no URL outside the given list and the images of
the addresses it processes. -/
theorem step6_not_mem (port : Nat) {y : String} :
    ∀ (ips urls : List String), y ∉ urls →
      (∀ x ∈ ips, mkUrl x port ≠ y) → y ∉ step6 port ips urls := by
  intro ips
  induction ips with
  | nil => intro urls hy _; exact hy
  | cons x rest ih =>
    intro urls hy hx
    rw [step6_cons]
    by_cases hc : x ≠ "127.0.0.1" ∧ mkUrl x port ∉ urls
    · rw [if_pos hc]
      refine ih _ ?_ fun z hz => hx z (List.mem_cons_of_mem _ hz)
      intro hmem
      rcases List.mem_append.mp hmem with hm | hm
      · exact hy hm
      · exact hx x (List.mem_cons_self x rest) (List.mem_singleton.mp hm).symm
    · rw [if_neg hc]
      exact ih urls hy fun z hz => hx z (List.mem_cons_of_mem _ hz)

end Clipboard2Voice

namespace Clipboard2Voice

/-- **C7** (amended): `get_connection_urls` produces the documented
priority order — the four fixed URLs first and the bridge URL
`172.17.0.1` last — and a resolution failure only shortens the list
(steps 5-6 disappear, duplicates do not arise).  The list is
duplicate-free *provided* the resolved primary IP, the hostname and
the enumerated IPs avoid the fixed addresses, in particular the bridge
address `172.17.0.1` (the bridge URL is appended without a membership
check, so a host IP equal to it duplicates — the counterexample).  The
hotkey client's `_get_potential_server_urls` stops at step 5: it never
contains the bridge URL, and is duplicate-free under the same
freshness assumptions. -/
theorem c7_url_lists (port : Nat) (hn ip : String) (ips : List String)
    (hip : ip ∉ ["localhost", "0.0.0.0", "[::1]", "172.17.0.1"])
    (hhn : hn ∉ ["localhost", "127.0.0.1", "0.0.0.0", "[::1]",
      "172.17.0.1", ip])
    (hips : "172.17.0.1" ∉ ips) :
    (get_connection_urls port .fail0
        = baseUrls port ++ [mkUrl "172.17.0.1" port] ∧
      (get_connection_urls port .fail0).Nodup) ∧
    (get_connection_urls port (.ok hn ip ips)).Nodup ∧
    ((get_connection_urls port (.ok hn ip ips)).take 4 = baseUrls port ∧
      (get_connection_urls port (.ok hn ip ips)).getLast?
        = some (mkUrl "172.17.0.1" port)) ∧
    (mkUrl "172.17.0.1" port ∉ get_potential_server_urls port (.ok hn ip) ∧
      (get_potential_server_urls port (.ok hn ip)).Nodup) := by
  have hipl : ip ≠ "localhost" ∧ ip ≠ "0.0.0.0" ∧ ip ≠ "[::1]" ∧
      ip ≠ "172.17.0.1" := by simpa using hip
  have hhnl : hn ≠ "localhost" ∧ hn ≠ "127.0.0.1" ∧ hn ≠ "0.0.0.0" ∧
      hn ≠ "[::1]" ∧ hn ≠ "172.17.0.1" ∧ hn ≠ ip := by simpa using hhn
  have hL0form : ∃ addrs : List String,
      baseUrls port ++ hostStepUrls port hn ip
          = addrs.map (fun a => mkUrl a port) ∧
      addrs.Nodup ∧ "172.17.0.1" ∉ addrs := by
    by_cases h127 : ip = "127.0.0.1"
    · refine ⟨["localhost", "127.0.0.1", "0.0.0.0", "[::1]"],
        by simp [baseUrls, hostStepUrls, h127], by decide, by decide⟩
    · refine ⟨["localhost", "127.0.0.1", "0.0.0.0", "[::1]", ip, hn],
        by simp [baseUrls, hostStepUrls, h127], ?_, ?_⟩
      · have e1 : "localhost" ≠ ip := Ne.symm hipl.1
        have e2 : "0.0.0.0" ≠ ip := Ne.symm hipl.2.1
        have e3 : "[::1]" ≠ ip := Ne.symm hipl.2.2.1
        have e4 : "127.0.0.1" ≠ ip := fun he => h127 he.symm
        have f1 : "localhost" ≠ hn := Ne.symm hhnl.1
        have f2 : "127.0.0.1" ≠ hn := Ne.symm hhnl.2.1
        have f3 : "0.0.0.0" ≠ hn := Ne.symm hhnl.2.2.1
        have f4 : "[::1]" ≠ hn := Ne.symm hhnl.2.2.2.1
        have f5 : ip ≠ hn := Ne.symm hhnl.2.2.2.2.2
        simp [List.nodup_cons, List.mem_cons, e1, e2, e3, e4,
          f1, f2, f3, f4, f5]
      · have g1 : "172.17.0.1" ≠ ip := Ne.symm hipl.2.2.2
        have g2 : "172.17.0.1" ≠ hn := Ne.symm hhnl.2.2.2.2.1
        simp [List.mem_cons, g1, g2]
  obtain ⟨addrs, haddr, hnodupA, hbna⟩ := hL0form
  have hL0nodup : (baseUrls port ++ hostStepUrls port hn ip).Nodup := by
    rw [haddr]
    exact List.Nodup.map mkUrl_inj hnodupA
  have hbridgeL0 :
      mkUrl "172.17.0.1" port ∉ baseUrls port ++ hostStepUrls port hn ip := by
    rw [haddr]
    intro hmem
    obtain ⟨a, ha, hae⟩ := List.mem_map.mp hmem
    exact hbna ((mkUrl_inj hae) ▸ ha)
  have hipsne : ∀ x ∈ ips, mkUrl x port ≠ mkUrl "172.17.0.1" port := by
    intro x hx he
    exact hips ((mkUrl_inj he) ▸ hx)
  have hok : get_connection_urls port (.ok hn ip ips)
      = step6 port ips (baseUrls port ++ hostStepUrls port hn ip)
          ++ [mkUrl "172.17.0.1" port] := rfl
  have hstepN := step6_nodup port ips _ hL0nodup
  have hbridgeS := step6_not_mem port ips _ hbridgeL0 hipsne
  refine ⟨⟨rfl, ?_⟩, ?_, ⟨?_, ?_⟩, ?_, ?_⟩
  · have hbf : get_connection_urls port .fail0
        = (["localhost", "127.0.0.1", "0.0.0.0", "[::1]",
            "172.17.0.1"]).map (fun a => mkUrl a port) := rfl
    rw [hbf]
    exact List.Nodup.map mkUrl_inj (by decide)
  · rw [hok]
    rw [List.nodup_append]
    refine ⟨hstepN, by simp, ?_⟩
    intro y hy hy'
    rw [List.mem_singleton.mp hy'] at hy
    exact hbridgeS hy
  · obtain ⟨extra, hex⟩ := step6_extends port ips
      (baseUrls port ++ hostStepUrls port hn ip)
    rw [hok, hex, List.append_assoc, List.append_assoc]
    have hlen : (baseUrls port).length = 4 := rfl
    rw [← hlen]
    exact List.take_left _ _
  · rw [hok]
    exact List.getLast?_concat _
  · exact hbridgeL0
  · exact hL0nodup

end Clipboard2Voice

namespace Clipboard2Voice

/-- **C7** counterexample: when the host's resolved primary IP is the
Docker bridge address `172.17.0.1` (as inside a bridge-network
container), its URL is appended at step 5 and the unconditional bridge
append at step 7 repeats it: the URL `http://172.17.0.1:8090` appears
twice, so the output is not deduplicated. -/
theorem c7_bridge_url_duplicated :
    (get_connection_urls 8090
        (.ok "myhost" "172.17.0.1" ["172.17.0.1"])).count
      (mkUrl "172.17.0.1" 8090) = 2 ∧
    ¬ (get_connection_urls 8090
        (.ok "myhost" "172.17.0.1" ["172.17.0.1"])).Nodup := by
  decide

/-- **C7** witness: the amended theorem at a concrete port and
resolution outcome with fresh addresses — the diagnostic generator's
full list is duplicate-free there. -/
theorem c7_url_lists_witness :
    (get_connection_urls 8090
        (.ok "myhost" "10.0.1.5" ["10.0.1.5", "10.8.0.2"])).Nodup :=
  (c7_url_lists 8090 "myhost" "10.0.1.5" ["10.0.1.5", "10.8.0.2"]
    (by decide) (by decide) (by decide)).2.1

end Clipboard2Voice
